import Mathlib

/-!
Shallow embedding of the iroh client-side materialization layer:
`iroh-api/src/api_ext.rs` (the `ApiExt` trait: `get`, `add_stream`, `add`,
plus the free functions `save_get_stream` and `get_root_path`) and
`iroh-rpc-client/src/config.rs` (`Config` and its `Source::collect`).

Filesystem effects are modelled by explicit state passing over a finite
association map from paths (lists of segments) to nodes; fallible operations
return the updated state together with an `Except` result, so partial effects
of a failing operation remain visible in the state (the code performs no
rollback).  Streams are modelled as finite lists of `Except`-wrapped items,
consumed strictly in order, which matches the pull-based sequential
consumption in the source.
-/

/-- Content identifier.  Opaque and hash-derived in the source (`cid::Cid`);
modelled by its string encoding, with structural equality. -/
abbrev Cid := String

/-- String form of a `Cid` (the source's `cid.to_string()`); the model stores
the encoding itself, so this is the identity. -/
def cidToString (c : Cid) : String := c

/-- Error values.  The source uses `anyhow::Error`; each constructor records
one of the distinct failure messages / io error kinds that the embedded code
can produce. -/
inductive Err
  /-- "IPFS path does not refer to a CID" -/
  | noCid
  /-- "output path ... already exists" -/
  | outputPathExists (p : List String)
  /-- "can only add files or directories" -/
  | unsupportedEntry
  /-- "No cid found" (`.context` on a `None` accumulator) -/
  | noCidFound
  /-- io error: a path component exists but is not a directory -/
  | notADirectory (p : List String)
  /-- io error: `File::create` aimed at an existing directory -/
  | isADirectory (p : List String)
  /-- io error: parent directory missing -/
  | parentNotFound (p : List String)
  /-- io error: symlink destination already exists -/
  | destExists (p : List String)
  /-- io error surfaced by `tokio::io::copy` while reading content -/
  | readFailure (msg : String)
  /-- an error item produced by an external stream -/
  | streamErr (msg : String)
deriving DecidableEq, Repr

/-- A filesystem path, as its list of segments. -/
abbrev FsPath := List String

/-- What sits at one filesystem path. -/
inductive FsNode
  | dir
  | file (content : String)
  | symlink (target : String)
deriving DecidableEq, Repr

/-- Filesystem state: a finite map from paths to nodes (first match wins on
lookup, so inserting conses a fresh binding). -/
abbrev Fs := List (FsPath × FsNode)

def lookupFs (fs : Fs) (p : FsPath) : Option FsNode :=
  match fs with
  | [] => none
  | (q, n) :: rest => if q = p then some n else lookupFs rest p

def insertFs (fs : Fs) (p : FsPath) (n : FsNode) : Fs :=
  (p, n) :: fs

/-- `relative_path::RelativePathBuf`: a normalized relative path, as its list
of segments. -/
abbrev RelativePathBuf := List String

/-- `RelativePathBuf::parent`: `none` for the empty path, otherwise the path
with its last segment dropped (possibly the empty path). -/
def relParent : RelativePathBuf → Option RelativePathBuf
  | [] => none
  | s :: rest => some (List.dropLast (s :: rest))

/-- `RelativePath::to_path(root)`: join the relative path onto a root. -/
def toPath (root : FsPath) (p : RelativePathBuf) : FsPath :=
  root ++ p

/-- `OutType` from `iroh-api`: one tree-entry payload.  A `reader` is an
async byte source, modelled by the bytes it delivers before either ending
(`readErr = none`) or failing with a read error (`readErr = some msg`). -/
inductive OutType
  | dir
  | reader (content : String) (readErr : Option String)
  | symlink (target : String)
deriving DecidableEq, Repr

/-- One step of `tokio::fs::create_dir_all`: ensure a single path is a
directory, failing if a non-directory entry already occupies it. -/
def mkdirOne (fs : Fs) (q : FsPath) : Fs × Except Err Unit :=
  match lookupFs fs q with
  | some FsNode.dir => (fs, Except.ok ())
  | some _ => (fs, Except.error (Err.notADirectory q))
  | none => (insertFs fs q FsNode.dir, Except.ok ())

def mkdirAll (fs : Fs) : List FsPath → Fs × Except Err Unit
  | [] => (fs, Except.ok ())
  | q :: qs =>
    match mkdirOne fs q with
    | (fs1, Except.error e) => (fs1, Except.error e)
    | (fs1, Except.ok _) => mkdirAll fs1 qs

/-- `tokio::fs::create_dir_all`: create the directory and every missing
ancestor, shortest prefix first; idempotent on existing directories,
fails on a non-directory component, keeping directories created so far. -/
def create_dir_all (fs : Fs) (p : FsPath) : Fs × Except Err Unit :=
  mkdirAll fs p.inits

/-- `tokio::fs::File::create`: requires an existing parent directory, refuses
a directory at the destination, otherwise (re)creates the file empty. -/
def file_create (fs : Fs) (p : FsPath) : Fs × Except Err Unit :=
  match p with
  | [] => (fs, Except.error (Err.parentNotFound []))
  | s :: rest =>
    match lookupFs fs (List.dropLast (s :: rest)) with
    | some FsNode.dir =>
      match lookupFs fs (s :: rest) with
      | some FsNode.dir => (fs, Except.error (Err.isADirectory (s :: rest)))
      | _ => (insertFs fs (s :: rest) (FsNode.file ""), Except.ok ())
    | _ => (fs, Except.error (Err.parentNotFound (s :: rest)))

/-- `tokio::fs::symlink(target, path)`: requires an existing parent
directory and an absent destination. -/
def symlink_create (fs : Fs) (target : String) (p : FsPath) : Fs × Except Err Unit :=
  match p with
  | [] => (fs, Except.error (Err.destExists []))
  | s :: rest =>
    if (lookupFs fs (s :: rest)).isSome then
      (fs, Except.error (Err.destExists (s :: rest)))
    else
      match lookupFs fs (List.dropLast (s :: rest)) with
      | some FsNode.dir =>
        (insertFs fs (s :: rest) (FsNode.symlink target), Except.ok ())
      | _ => (fs, Except.error (Err.parentNotFound (s :: rest)))

/-- `File::create` followed by `tokio::io::copy`: the bytes the reader
delivered are written even when the reader then fails, so a read failure
leaves a partially written file behind. -/
def fileWrite (fs : Fs) (p : FsPath) (content : String) (readErr : Option String) :
    Fs × Except Err Unit :=
  match file_create fs p with
  | (fs1, Except.error e) => (fs1, Except.error e)
  | (fs1, Except.ok _) =>
    let fs2 := insertFs fs1 p (FsNode.file content)
    match readErr with
    | none => (fs2, Except.ok ())
    | some m => (fs2, Except.error (Err.readFailure m))

/-- The body of `save_get_stream`'s loop for one successfully received
`(path, out)` pair. -/
def saveOut (root : FsPath) (fs : Fs) (path : RelativePathBuf) (out : OutType) :
    Fs × Except Err Unit :=
  match out with
  | OutType.dir => create_dir_all fs (toPath root path)
  | OutType.reader content readErr =>
    match relParent path with
    | some par =>
      match create_dir_all fs (toPath root par) with
      | (fs1, Except.error e) => (fs1, Except.error e)
      | (fs1, Except.ok _) => fileWrite fs1 (toPath root path) content readErr
    | none => fileWrite fs (toPath root path) content readErr
  | OutType.symlink target =>
    match relParent path with
    | some par =>
      match create_dir_all fs (toPath root par) with
      | (fs1, Except.error e) => (fs1, Except.error e)
      | (fs1, Except.ok _) => symlink_create fs1 target (toPath root path)
    | none => symlink_create fs target (toPath root path)

/-- One item of the Tree Entry Stream, as `get_stream` yields it. -/
abbrev StreamItem := Except Err (RelativePathBuf × OutType)

/-- Handling of one stream item inside `save_get_stream`: an error item
aborts via `?`, an ok item is written out. -/
def saveItem (root : FsPath) (fs : Fs) : StreamItem → Fs × Except Err Unit
  | Except.error e => (fs, Except.error e)
  | Except.ok (path, out) => saveOut root fs path out

/-- `save_get_stream`: consume the stream strictly in order, writing each
item under the root; the first failure aborts, leaving everything already
written in place. -/
def save_get_stream (root : FsPath) (fs : Fs) : List StreamItem → Fs × Except Err Unit
  | [] => (fs, Except.ok ())
  | item :: rest =>
    match saveItem root fs item with
    | (fs1, Except.error e) => (fs1, Except.error e)
    | (fs1, Except.ok _) => save_get_stream root fs1 rest

/-- `IpfsPath`: an optional root CID plus the tail of path segments.
`cid()` returns the root CID when the path carries one; `tail()` the
segments after it. -/
structure IpfsPath where
  cid : Option Cid
  tail : List String
deriving DecidableEq, Repr

/-- `get_root_path(ipfs_path, output_path)`.  The source calls `.unwrap()`
twice; the `none` result models the panic of an `unwrap` on `None` (the
model totalizes the partial function, it does not change its defined
values). -/
def get_root_path (ipfs_path : IpfsPath) (output_path : Option FsPath) : Option FsPath :=
  match output_path with
  | some path => some path
  | none =>
    if ipfs_path.tail.isEmpty then
      match ipfs_path.cid with
      | some c => some [cidToString c]
      | none => none
    else
      match ipfs_path.tail.getLast? with
      | some seg => some [seg]
      | none => none

/-- `ApiExt::get`: check the CID precondition, resolve the destination,
refuse an existing destination, then materialize the block stream obtained
from `get_stream` (passed in as `blocks`).  The outer `Option` is `none`
exactly when `get_root_path` would panic, which `get`'s guard makes
unreachable. -/
def ApiExt.get (blocks : List StreamItem) (ipfs_path : IpfsPath) (output_path : Option FsPath)
    (fs : Fs) : Option (Fs × Except Err FsPath) :=
  if ipfs_path.cid.isNone then some (fs, Except.error Err.noCid)
  else
    match get_root_path ipfs_path output_path with
    | none => none
    | some root_path =>
      if (lookupFs fs root_path).isSome then
        some (fs, Except.error (Err.outputPathExists root_path))
      else
        match save_get_stream root_path fs blocks with
        | (fs1, Except.error e) => some (fs1, Except.error e)
        | (fs1, Except.ok _) => some (fs1, Except.ok root_path)

/-- `AddEvent`: the single-variant ingestion progress event, carrying the
CID computed so far. -/
inductive AddEvent
  | progressDelta (cid : Cid)
deriving DecidableEq, Repr

/-- The filesystem metadata queries `add_stream` performs on its input path:
`Path::is_dir`, `Path::is_symlink`, `Path::is_file`. -/
structure LocalPath where
  is_dir : Bool
  is_symlink : Bool
  is_file : Bool
deriving DecidableEq, Repr

/-- The external ingestion capabilities (`Api::add_dir`, `Api::add_symlink`,
`Api::add_file`), each producing an Ingestion Event Stream. -/
structure Api where
  add_dir_events : List (Except Err AddEvent)
  add_symlink_events : List (Except Err AddEvent)
  add_file_events : List (Except Err AddEvent)

/-- `ApiExt::add_stream`: dispatch on the local entry kind, in source order
(`is_dir`, then `is_symlink`, then `is_file`), else fail with
"can only add files or directories". -/
def add_stream (api : Api) (path : LocalPath) : Except Err (List (Except Err AddEvent)) :=
  if path.is_dir then Except.ok api.add_dir_events
  else if path.is_symlink then Except.ok api.add_symlink_events
  else if path.is_file then Except.ok api.add_file_events
  else Except.error Err.unsupportedEntry

/-- `futures::TryStreamExt::try_fold` specialized to `add`'s closure: an
error item aborts; an ok event overwrites the accumulator (the closure
ignores `_acc`) with the event's CID. -/
def try_fold (acc : Option Cid) : List (Except Err AddEvent) → Except Err (Option Cid)
  | [] => Except.ok acc
  | Except.error e :: _ => Except.error e
  | Except.ok (AddEvent.progressDelta c) :: rest => try_fold (some c) rest

/-- `ApiExt::add`: obtain the event stream, fold it last-seen-wins starting
from `None`, and turn an empty accumulator into the "No cid found" error. -/
def add (api : Api) (path : LocalPath) : Except Err Cid :=
  match add_stream api path with
  | Except.error e => Except.error e
  | Except.ok events =>
    match try_fold none events with
    | Except.error e => Except.error e
    | Except.ok (some c) => Except.ok c
    | Except.ok none => Except.error Err.noCidFound

/-- `config::ConfigError` (only its existence matters here: `collect` never
produces one). -/
inductive ConfigError
  | failure (msg : String)
deriving DecidableEq, Repr

/-- The ordered key-to-string map `collect` builds. -/
abbrev ConfigMap := List (String × String)

/-- Modelled from the spec: `insert_into_config_map` lives in the
`iroh-util` crate, which is not under the given source tree.  The spec
requires a generic ordered key-to-string mapping in which only present keys
are emitted, so insertion appends the key/value pair in call order. -/
def insert_into_config_map (m : ConfigMap) (k v : String) : ConfigMap :=
  m ++ [(k, v)]

/-- `iroh-rpc-client` `Config`: three optional service addresses (modelled by
their string form, their `Display` output) and an optional channel count. -/
structure Config where
  gateway_addr : Option String
  p2p_addr : Option String
  store_addr : Option String
  channels : Option Nat
deriving DecidableEq, Repr

/-- `#[derive(Default)]`: every field `None`. -/
def Config.default : Config :=
  { gateway_addr := none, p2p_addr := none, store_addr := none, channels := none }

/-- `Source::collect` for `Config`: insert each present field under its key,
in field order, and always succeed. -/
def Config.collect (c : Config) : Except ConfigError ConfigMap :=
  let map : ConfigMap := []
  let map := match c.gateway_addr with
    | some addr => insert_into_config_map map "gateway_addr" addr
    | none => map
  let map := match c.p2p_addr with
    | some addr => insert_into_config_map map "p2p_addr" addr
    | none => map
  let map := match c.store_addr with
    | some addr => insert_into_config_map map "store_addr" addr
    | none => map
  let map := match c.channels with
    | some ch => insert_into_config_map map "channels" (toString ch)
    | none => map
  Except.ok map

/-! ## Helper definitions for the theorems -/

/-- An all-ok ingestion event stream carrying the given CIDs in order. -/
def evList (cs : List Cid) : List (Except Err AddEvent) :=
  cs.map (fun c => Except.ok (AddEvent.progressDelta c))

/-- The map `collect` returns (it always succeeds). -/
def collectedMap (c : Config) : ConfigMap :=
  match c.collect with
  | Except.ok m => m
  | Except.error _ => []

/-- Lookup in a collected configuration map (first binding wins). -/
def lookupStr (m : ConfigMap) (k : String) : Option String :=
  match m with
  | [] => none
  | (k2, v) :: rest => if k2 = k then some v else lookupStr rest k

/-! ## Helper lemmas -/

theorem try_fold_evList (cs : List Cid) (acc : Option Cid) :
    try_fold acc (evList cs) =
      Except.ok (match cs.getLast? with | some c => some c | none => acc) := by
  induction cs generalizing acc with
  | nil => rfl
  | cons c rest ih =>
    cases rest with
    | nil => rfl
    | cons d ds =>
      have step : try_fold acc (evList (c :: d :: ds)) =
          try_fold (some c) (evList (d :: ds)) := rfl
      rw [step, ih, List.getLast?_cons_cons]
      cases hl : (d :: ds).getLast? with
      | none => exact absurd (List.getLast?_eq_none_iff.mp hl) (List.cons_ne_nil d ds)
      | some x => rfl

theorem save_get_stream_append (root : FsPath) (fs : Fs) (pre rest : List StreamItem)
    (h : (save_get_stream root fs pre).2 = Except.ok ()) :
    save_get_stream root fs (pre ++ rest) =
      save_get_stream root (save_get_stream root fs pre).1 rest := by
  induction pre generalizing fs with
  | nil => rfl
  | cons item items ih =>
    rcases hsi : saveItem root fs item with ⟨fs1, r⟩
    cases r with
    | error e =>
      exfalso
      have : (save_get_stream root fs (item :: items)).2 = Except.error e := by
        simp only [save_get_stream, hsi]
      rw [this] at h
      exact Except.noConfusion h
    | ok u =>
      cases u
      have hstep : save_get_stream root fs (item :: items) = save_get_stream root fs1 items := by
        simp only [save_get_stream, hsi]
      have h1 : (save_get_stream root fs1 items).2 = Except.ok () := by
        rw [hstep] at h
        exact h
      calc save_get_stream root fs ((item :: items) ++ rest)
          = save_get_stream root fs1 (items ++ rest) := by
            simp only [List.cons_append, save_get_stream, hsi]
            rfl
        _ = save_get_stream root (save_get_stream root fs1 items).1 rest := ih fs1 h1
        _ = save_get_stream root (save_get_stream root fs (item :: items)).1 rest := by
            rw [hstep]

/-! ## Claim theorems -/

/-- C3: for a content path reference carrying root identifier `X`, an
explicit output path is used verbatim whatever the tail is; with no output
path, an empty tail resolves to the string form of `X` and a non-empty tail
resolves to its last segment. -/
theorem get_root_path_resolution (X : Cid) :
    (∀ t o, get_root_path ⟨some X, t⟩ (some o) = some o)
    ∧ get_root_path ⟨some X, []⟩ none = some [cidToString X]
    ∧ ∀ s ts, get_root_path ⟨some X, s :: ts⟩ none =
        some [(s :: ts).getLast (List.cons_ne_nil s ts)] := by
  refine ⟨fun t o => rfl, rfl, fun s ts => ?_⟩
  show (match (s :: ts).getLast? with
    | some seg => some [seg]
    | none => none) = some [(s :: ts).getLast (List.cons_ne_nil s ts)]
  rw [List.getLast?_eq_getLast (s :: ts) (List.cons_ne_nil s ts)]

/-- C4: `add_stream` dispatches by entry kind in priority order: a directory
goes to the directory-ingestion capability regardless of the other flags, a
non-directory symlink to the symlink capability regardless of the file flag,
a plain regular file to the file capability, and anything else fails with
the unsupported-entry error, invoking no capability. -/
theorem add_stream_dispatch_priority (api : Api) :
    (∀ s f, add_stream api ⟨true, s, f⟩ = Except.ok api.add_dir_events)
    ∧ (∀ f, add_stream api ⟨false, true, f⟩ = Except.ok api.add_symlink_events)
    ∧ add_stream api ⟨false, false, true⟩ = Except.ok api.add_file_events
    ∧ add_stream api ⟨false, false, false⟩ = Except.error Err.unsupportedEntry :=
  ⟨fun _ _ => rfl, fun _ => rfl, rfl, rfl⟩

/-- C8: materializing the stream {Directory "a", Symlink "a/c" with target
"../b", ReadableContent "b" = "hello"} into a fresh destination root
succeeds, and afterwards "a" is a directory, "a/c" is a symlink whose target
is "../b", and "b" is a regular file with content "hello". -/
theorem save_get_stream_round_trip :
    (save_get_stream ["dest"] []
        [Except.ok (["a"], OutType.dir),
         Except.ok (["a", "c"], OutType.symlink "../b"),
         Except.ok (["b"], OutType.reader "hello" none)]).2 = Except.ok ()
    ∧ lookupFs (save_get_stream ["dest"] []
        [Except.ok (["a"], OutType.dir),
         Except.ok (["a", "c"], OutType.symlink "../b"),
         Except.ok (["b"], OutType.reader "hello" none)]).1 ["dest", "a"]
      = some FsNode.dir
    ∧ lookupFs (save_get_stream ["dest"] []
        [Except.ok (["a"], OutType.dir),
         Except.ok (["a", "c"], OutType.symlink "../b"),
         Except.ok (["b"], OutType.reader "hello" none)]).1 ["dest", "a", "c"]
      = some (FsNode.symlink "../b")
    ∧ lookupFs (save_get_stream ["dest"] []
        [Except.ok (["a"], OutType.dir),
         Except.ok (["a", "c"], OutType.symlink "../b"),
         Except.ok (["b"], OutType.reader "hello" none)]).1 ["dest", "b"]
      = some (FsNode.file "hello") :=
  ⟨rfl, rfl, rfl, rfl⟩

/-- C10: under `get`'s precondition that the reference carries a root CID,
`get_root_path` is total: the guarded `cid().unwrap()` only runs when the
CID is present and the guarded `tail().last().unwrap()` only runs when the
tail is non-empty, so no panic is reachable. -/
theorem get_root_path_total_under_cid (ipfs_path : IpfsPath)
    (output_path : Option FsPath) (h : ipfs_path.cid.isSome = true) :
    (get_root_path ipfs_path output_path).isSome = true := by
  obtain ⟨c, hc⟩ := Option.isSome_iff_exists.mp h
  cases output_path with
  | some path => rfl
  | none =>
    cases ht : ipfs_path.tail with
    | nil => simp [get_root_path, ht, hc]
    | cons s ts =>
      have hne : (s :: ts).getLast?.isSome = true :=
        List.getLast?_isSome.mpr (List.cons_ne_nil s ts)
      obtain ⟨seg, hseg⟩ := Option.isSome_iff_exists.mp hne
      simp [get_root_path, ht, hseg]

/-- Witness for C10 at a concrete reference. -/
theorem get_root_path_total_under_cid_witness :
    (IpfsPath.mk (some "QmYyQ") []).cid.isSome = true
    ∧ (get_root_path ⟨some "QmYyQ", []⟩ none).isSome = true :=
  ⟨rfl, get_root_path_total_under_cid ⟨some "QmYyQ", []⟩ none rfl⟩

/-- C1: on any non-empty all-ok ingestion event stream, `add` returns the
CID carried by the last event: the fold ignores its accumulator and
overwrites it with each event's CID, so a later event always supersedes an
earlier one. -/
theorem add_returns_last_cid (api : Api) (path : LocalPath) (cs : List Cid)
    (hne : cs ≠ [])
    (hs : add_stream api path = Except.ok (evList cs)) :
    add api path = Except.ok (cs.getLast hne) := by
  unfold add
  rw [hs]
  show (match try_fold none (evList cs) with
    | Except.error e => Except.error e
    | Except.ok (some c) => Except.ok c
    | Except.ok none => Except.error Err.noCidFound) = Except.ok (cs.getLast hne)
  rw [try_fold_evList, List.getLast?_eq_getLast cs hne]

/-- Witness for C1: events carrying identifiers [A, B, C] reduce to C. -/
theorem add_returns_last_cid_witness :
    (["A", "B", "C"] : List Cid) ≠ []
    ∧ add ⟨evList ["A", "B", "C"], [], []⟩ ⟨true, false, false⟩ = Except.ok "C" :=
  ⟨by decide,
   add_returns_last_cid ⟨evList ["A", "B", "C"], [], []⟩ ⟨true, false, false⟩
     ["A", "B", "C"] (by decide) rfl⟩

/-- C5: when the ingestion event stream produced by `add_stream` is empty,
`add` fails with the "No cid found" error and never returns a CID. -/
theorem add_empty_stream_fails (api : Api) (path : LocalPath)
    (hs : add_stream api path = Except.ok []) :
    add api path = Except.error Err.noCidFound := by
  unfold add
  rw [hs]
  rfl

/-- Witness for C5: a directory whose ingestion stream is empty. -/
theorem add_empty_stream_fails_witness :
    add_stream ⟨[], [], []⟩ ⟨true, false, false⟩ = Except.ok []
    ∧ add ⟨[], [], []⟩ ⟨true, false, false⟩ = Except.error Err.noCidFound :=
  ⟨rfl, add_empty_stream_fails ⟨[], [], []⟩ ⟨true, false, false⟩ rfl⟩

/-- C2: if every item of `pre` is written successfully and the next item
`bad` fails (an error item, or a write/copy failure), then materializing
`pre ++ bad :: post` returns exactly that error, the filesystem ends in the
state reached by writing `pre` in order and then applying `bad`'s partial
effect, no item of `post` is ever consumed (the result does not depend on
`post`), and nothing already written is removed. -/
theorem save_get_stream_first_failure (root : FsPath) (fs : Fs)
    (pre : List StreamItem) (bad : StreamItem) (post : List StreamItem) (e : Err)
    (hpre : (save_get_stream root fs pre).2 = Except.ok ())
    (hbad : (saveItem root (save_get_stream root fs pre).1 bad).2 = Except.error e) :
    save_get_stream root fs (pre ++ bad :: post) =
      ((saveItem root (save_get_stream root fs pre).1 bad).1, Except.error e) := by
  rw [save_get_stream_append root fs pre (bad :: post) hpre]
  rcases hsi : saveItem root (save_get_stream root fs pre).1 bad with ⟨fs1, r⟩
  rw [hsi] at hbad
  cases r with
  | ok u => exact Except.noConfusion hbad
  | error e2 =>
    cases hbad
    simp only [save_get_stream, hsi]

/-- Witness for C2: the first item (a directory) is written, the second
fails mid-copy, the third is never consumed and the directory stays. -/
theorem save_get_stream_first_failure_witness :
    (save_get_stream ["dest"] [] [Except.ok (["a"], OutType.dir)]).2 = Except.ok ()
    ∧ (saveItem ["dest"] (save_get_stream ["dest"] [] [Except.ok (["a"], OutType.dir)]).1
        (Except.ok (["b"], OutType.reader "he" (some "boom")))).2
      = Except.error (Err.readFailure "boom")
    ∧ save_get_stream ["dest"] []
        ([Except.ok (["a"], OutType.dir)] ++
          Except.ok (["b"], OutType.reader "he" (some "boom")) ::
            [Except.ok (["zz"], OutType.dir)])
      = ((saveItem ["dest"] (save_get_stream ["dest"] [] [Except.ok (["a"], OutType.dir)]).1
            (Except.ok (["b"], OutType.reader "he" (some "boom")))).1,
         Except.error (Err.readFailure "boom")) :=
  ⟨rfl, rfl,
   save_get_stream_first_failure ["dest"] [] [Except.ok (["a"], OutType.dir)]
     (Except.ok (["b"], OutType.reader "he" (some "boom")))
     [Except.ok (["zz"], OutType.dir)] (Err.readFailure "boom") rfl rfl⟩

/-- C6: when the content path reference carries no root CID, `get` fails
with the addressing error before any I/O: the filesystem is returned
unchanged, the result does not depend on the block stream (so no stream is
consumed), and no panic occurs. -/
theorem get_rejects_missing_cid (blocks : List StreamItem) (ipfs_path : IpfsPath)
    (output_path : Option FsPath) (fs : Fs) (h : ipfs_path.cid = none) :
    ApiExt.get blocks ipfs_path output_path fs = some (fs, Except.error Err.noCid) := by
  unfold ApiExt.get
  rw [h]
  rfl

/-- Witness for C6 at a concrete CID-less reference. -/
theorem get_rejects_missing_cid_witness :
    (IpfsPath.mk none ["x"]).cid = none
    ∧ ApiExt.get [Except.ok (["a"], OutType.dir)] ⟨none, ["x"]⟩ none []
      = some ([], Except.error Err.noCid) :=
  ⟨rfl, get_rejects_missing_cid [Except.ok (["a"], OutType.dir)] ⟨none, ["x"]⟩ none [] rfl⟩

/-- C7: when the reference carries a root CID and the resolved destination
(explicit or derived) already exists, `get` fails with the already-exists
error for that destination and performs no writes: the filesystem is
returned unchanged and the result does not depend on the block stream. -/
theorem get_rejects_existing_destination (blocks : List StreamItem)
    (ipfs_path : IpfsPath) (output_path : Option FsPath) (fs : Fs) (root_path : FsPath)
    (hcid : ipfs_path.cid.isSome = true)
    (hroot : get_root_path ipfs_path output_path = some root_path)
    (hex : (lookupFs fs root_path).isSome = true) :
    ApiExt.get blocks ipfs_path output_path fs =
      some (fs, Except.error (Err.outputPathExists root_path)) := by
  obtain ⟨c, hc⟩ := Option.isSome_iff_exists.mp hcid
  simp [ApiExt.get, hc, hroot, hex]

/-- Witness for C7: the derived destination (the CID's string form) already
exists as a directory. -/
theorem get_rejects_existing_destination_witness :
    (IpfsPath.mk (some "QmZ") []).cid.isSome = true
    ∧ get_root_path ⟨some "QmZ", []⟩ none = some ["QmZ"]
    ∧ (lookupFs [(["QmZ"], FsNode.dir)] ["QmZ"]).isSome = true
    ∧ ApiExt.get [Except.ok (["a"], OutType.dir)] ⟨some "QmZ", []⟩ none [(["QmZ"], FsNode.dir)]
      = some ([(["QmZ"], FsNode.dir)], Except.error (Err.outputPathExists ["QmZ"])) :=
  ⟨rfl, rfl, by decide,
   get_rejects_existing_destination [Except.ok (["a"], OutType.dir)] ⟨some "QmZ", []⟩
     none [(["QmZ"], FsNode.dir)] ["QmZ"] rfl rfl (by decide)⟩

/-- C9: `collect` never fails; it emits exactly the keys among
gateway_addr, p2p_addr, store_addr, channels whose optional field is
present, each bound to that field's string form, in field order; absent
fields contribute no key; and the all-None default collects to the empty
map. -/
theorem config_collect_spec (g p s : Option String) (n : Option Nat) :
    (Config.collect ⟨g, p, s, n⟩).isOk = true
    ∧ lookupStr (collectedMap ⟨g, p, s, n⟩) "gateway_addr" = g
    ∧ lookupStr (collectedMap ⟨g, p, s, n⟩) "p2p_addr" = p
    ∧ lookupStr (collectedMap ⟨g, p, s, n⟩) "store_addr" = s
    ∧ lookupStr (collectedMap ⟨g, p, s, n⟩) "channels" = n.map (fun k => toString k)
    ∧ (collectedMap ⟨g, p, s, n⟩).map Prod.fst =
        (if g.isSome then ["gateway_addr"] else [])
        ++ (if p.isSome then ["p2p_addr"] else [])
        ++ (if s.isSome then ["store_addr"] else [])
        ++ (if n.isSome then ["channels"] else [])
    ∧ Config.collect Config.default = Except.ok [] := by
  cases g <;> cases p <;> cases s <;> cases n <;>
    simp [Config.collect, Config.default, collectedMap, insert_into_config_map,
      lookupStr, Except.isOk, Except.toBool]
